import Mathlib

/-!
Verification development for the render-bench repository.

We give a shallow embedding of the procedural city generator:
`src/solids.rs` (cube mesh construction and planar UV mapping),
`src/citybuilder.rs` (wall/story/building composer, texture loading,
worker start-up) and the texture table from `src/viewer.rs`.

Modelling conventions:
- `f32` values are modelled as rationals.  Arithmetic is modelled exactly
  except where a claim is about floating-point exactness; there the IEEE-754
  binary32 round-to-nearest-even operation is modelled explicitly by
  `roundF32` (see the wall-section height computations).
- Fallible code (`Result`, `unwrap` panics, `assert!` failures) is modelled
  with `Except String`, the error carrying the panic / context message.
- External collaborators (the rend3 renderer, the glam quaternion library,
  image decoding) are abstracted: renderer registration calls become
  explicit `RenderOp` events emitted by each function, decoded images are
  opaque values, and quaternion multiplication / rotation application /
  axis-angle construction are parameters (`QuatOps`), since no claim
  depends on their numeric behaviour.
-/

/-- Two-component vector of rationals, modelling `glam::Vec2` (f32 pair). -/
structure Vec2 where
  x : ℚ
  y : ℚ
deriving DecidableEq, Repr

/-- Three-component vector of rationals, modelling `glam::Vec3` (f32 triple). -/
structure Vec3 where
  x : ℚ
  y : ℚ
  z : ℚ
deriving DecidableEq, Repr

/-- Componentwise addition of `Vec3` (glam `+`). -/
def v3add (a b : Vec3) : Vec3 := ⟨a.x + b.x, a.y + b.y, a.z + b.z⟩

/-- Scalar multiple of a `Vec3` (glam `*` with a scalar). -/
def v3smul (c : ℚ) (v : Vec3) : Vec3 := ⟨c * v.x, c * v.y, c * v.z⟩

/-- Scalar multiple of a `Vec2` (glam `Vec2 * f32`). -/
def v2smul (c : ℚ) (v : Vec2) : Vec2 := ⟨c * v.x, c * v.y⟩

/-- The sign helper from `calc_single_uv` in solids.rs:
`|val| if val.is_sign_negative() { -1.0 } else { 1.0 }`.
Rationals have no negative zero, so the negative-zero case collapses
into the nonnegative branch; the cube normals passed here are `±1`,
never a zero, so this is faithful at every reachable call. -/
def qsign (val : ℚ) : ℚ := if val < 0 then -1 else 1

/-- Rust `f32::abs`, as a plain rational function. -/
def qabs (val : ℚ) : ℚ := if val < 0 then -val else val

/-- `UNIT_CUBE_VERTS` from solids.rs: the unit cube, four vertices per face,
no shared vertices at corners. -/
def UNIT_CUBE_VERTS : List Vec3 :=
  [ -- far side (0, 0, 1)
    ⟨-1/2, -1/2, 1/2⟩, ⟨1/2, -1/2, 1/2⟩, ⟨1/2, 1/2, 1/2⟩, ⟨-1/2, 1/2, 1/2⟩,
    -- near side (0, 0, -1)
    ⟨-1/2, 1/2, -1/2⟩, ⟨1/2, 1/2, -1/2⟩, ⟨1/2, -1/2, -1/2⟩, ⟨-1/2, -1/2, -1/2⟩,
    -- right side (1, 0, 0)
    ⟨1/2, -1/2, -1/2⟩, ⟨1/2, 1/2, -1/2⟩, ⟨1/2, 1/2, 1/2⟩, ⟨1/2, -1/2, 1/2⟩,
    -- left side (-1, 0, 0)
    ⟨-1/2, -1/2, 1/2⟩, ⟨-1/2, 1/2, 1/2⟩, ⟨-1/2, 1/2, -1/2⟩, ⟨-1/2, -1/2, -1/2⟩,
    -- top (0, 1, 0)
    ⟨1/2, 1/2, -1/2⟩, ⟨-1/2, 1/2, -1/2⟩, ⟨-1/2, 1/2, 1/2⟩, ⟨1/2, 1/2, 1/2⟩,
    -- bottom (0, -1, 0)
    ⟨1/2, -1/2, 1/2⟩, ⟨-1/2, -1/2, 1/2⟩, ⟨-1/2, -1/2, -1/2⟩, ⟨1/2, -1/2, -1/2⟩ ]

/-- `UNIT_CUBE_FACE_NORMALS` from solids.rs: one face normal per vertex. -/
def UNIT_CUBE_FACE_NORMALS : List Vec3 :=
  [ ⟨0, 0, 1⟩, ⟨0, 0, 1⟩, ⟨0, 0, 1⟩, ⟨0, 0, 1⟩,
    ⟨0, 0, -1⟩, ⟨0, 0, -1⟩, ⟨0, 0, -1⟩, ⟨0, 0, -1⟩,
    ⟨1, 0, 0⟩, ⟨1, 0, 0⟩, ⟨1, 0, 0⟩, ⟨1, 0, 0⟩,
    ⟨-1, 0, 0⟩, ⟨-1, 0, 0⟩, ⟨-1, 0, 0⟩, ⟨-1, 0, 0⟩,
    ⟨0, 1, 0⟩, ⟨0, 1, 0⟩, ⟨0, 1, 0⟩, ⟨0, 1, 0⟩,
    ⟨0, -1, 0⟩, ⟨0, -1, 0⟩, ⟨0, -1, 0⟩, ⟨0, -1, 0⟩ ]

/-- `UNIT_CUBE_INDICES` from solids.rs: the 12 triangles, two per face. -/
def UNIT_CUBE_INDICES : List ℕ :=
  [ 0, 1, 2, 2, 3, 0,
    4, 5, 6, 6, 7, 4,
    8, 9, 10, 10, 11, 8,
    12, 13, 14, 14, 15, 12,
    16, 17, 18, 18, 19, 16,
    20, 21, 22, 22, 23, 20 ]

/-- `norm_to_axis` from solids.rs: dominant axis of a normal, the axis of
largest absolute component, with strict comparisons (so a tied earlier axis
loses to a later one). -/
def norm_to_axis (normal : Vec3) : ℕ :=
  if qabs normal.x > qabs normal.y ∧ qabs normal.x > qabs normal.z then 0
  else if qabs normal.y > qabs normal.z then 1
  else 2

/-- `calc_single_uv` from solids.rs: one planar UV value.
`(u * sign(normal) + 0.25, v + 0.25) * 2.0`. -/
def calc_single_uv (pos : Vec2) (normal : ℚ) : Vec2 :=
  v2smul 2 ⟨pos.x * qsign normal + 1/4, pos.y + 1/4⟩

/-- `calc_uv` from solids.rs: project by dominant axis.
Axis 0 uses `(z, y)` with sign from `normal.x`, axis 1 uses `(x, z)` with
sign from `normal.y`, axis 2 uses `(x, y)` with sign from the NEGATED
`normal.z`.  Other axis values hit a `panic!` in the source and are
unreachable (`norm_to_axis` only yields 0, 1 or 2); they are modelled by a
junk value. -/
def calc_uv (axis : ℕ) (vertex : Vec3) (normal : Vec3) : Vec2 :=
  match axis with
  | 0 => calc_single_uv ⟨vertex.z, vertex.y⟩ normal.x
  | 1 => calc_single_uv ⟨vertex.x, vertex.z⟩ normal.y
  | 2 => calc_single_uv ⟨vertex.x, vertex.y⟩ (-normal.z)
  | _ => ⟨0, 0⟩

/-- `calc_uvs` from solids.rs: planar UVs for all vertices, each scaled by
the caller-supplied texture repeat factor. -/
def calc_uvs (vertex_positions : List Vec3) (normals : List Vec3)
    (texture_scale : ℚ) : List Vec2 :=
  (vertex_positions.zip normals).map
    (fun vn => v2smul texture_scale (calc_uv (norm_to_axis vn.2) vn.1 vn.2))

/-- A rend3 `Mesh` as built by `MeshBuilder` in `create_mesh`: vertex
positions, per-vertex normals, per-vertex UVs, and triangle indices. -/
structure Mesh where
  positions : List Vec3
  normals : List Vec3
  uvs : List Vec2
  indices : List ℕ
deriving DecidableEq, Repr

/-- `mul_elements` from `create_mesh`: componentwise product of vectors. -/
def mul_elements (a b : Vec3) : Vec3 := ⟨a.x * b.x, a.y * b.y, a.z * b.z⟩

/-- `create_mesh` from solids.rs: scale and offset the unit cube vertices,
attach the fixed face normals and indices, and compute planar UVs from the
scaled positions. -/
def create_mesh (scale offset : Vec3) (texture_scale : ℚ) : Mesh :=
  let vertex_positions := UNIT_CUBE_VERTS.map (fun v => v3add (mul_elements scale v) offset)
  let normals := UNIT_CUBE_FACE_NORMALS
  { positions := vertex_positions
    normals := normals
    uvs := calc_uvs vertex_positions normals texture_scale
    indices := UNIT_CUBE_INDICES }

/-- C2: test statement on a small instance. -/
example : (create_mesh ⟨1, 1, 1⟩ ⟨0, 0, 0⟩ 1).positions.length = 24 := by decide

/-- C2: For every scale, offset and texture-repeat factor, `create_mesh`
builds exactly 24 vertex positions, 24 normals, 24 UVs and 36 indices
(12 triangles, all indices in range), and the 4 vertices of each of the 6
faces carry the same normal vector. -/
theorem create_mesh_counts (scale offset : Vec3) (texture_scale : ℚ) :
    (create_mesh scale offset texture_scale).positions.length = 24 ∧
    (create_mesh scale offset texture_scale).normals.length = 24 ∧
    (create_mesh scale offset texture_scale).uvs.length = 24 ∧
    (create_mesh scale offset texture_scale).indices.length = 36 ∧
    (create_mesh scale offset texture_scale).indices.length = 3 * 12 ∧
    (∀ i ∈ (create_mesh scale offset texture_scale).indices, i < 24) ∧
    (∀ f : Fin 6, ∀ k : Fin 4,
      (create_mesh scale offset texture_scale).normals.getD (4 * f.val + k.val) ⟨0, 0, 0⟩ =
        (create_mesh scale offset texture_scale).normals.getD (4 * f.val) ⟨0, 0, 0⟩) :=
  ⟨rfl, rfl, rfl, rfl, rfl,
    by
      intro i hi
      rw [show (create_mesh scale offset texture_scale).indices = UNIT_CUBE_INDICES from rfl] at hi
      revert i
      decide,
    by
      intro f k
      rw [show (create_mesh scale offset texture_scale).normals = UNIT_CUBE_FACE_NORMALS from rfl]
      revert f k
      decide⟩

/-- Modelled from the spec for claim C1 (claim-side function): pick the
dominant axis of the face normal, largest absolute component, tie-break
order X before Y before Z. -/
def claim_dominant_axis (n : Vec3) : ℕ :=
  if qabs n.x ≥ qabs n.y ∧ qabs n.x ≥ qabs n.z then 0
  else if qabs n.y ≥ qabs n.z then 1
  else 2

/-- Modelled from the spec for claim C1 (claim-side function): project the
two remaining vertex coordinates, flip the sign of the first by the sign of
the dominant normal component, offset by `+0.25`, scale by `2.0`, multiply
by the repeat factor.  The projection pairs follow the code's conventions
(the claim does not fix them); for a Z-dominant face the claim's words give
the sign of `n.z` itself, not its negation. -/
def claimUV (vertex n : Vec3) (repeat_factor : ℚ) : Vec2 :=
  match claim_dominant_axis n with
  | 0 => v2smul repeat_factor (calc_single_uv ⟨vertex.z, vertex.y⟩ n.x)
  | 1 => v2smul repeat_factor (calc_single_uv ⟨vertex.x, vertex.z⟩ n.y)
  | _ => v2smul repeat_factor (calc_single_uv ⟨vertex.x, vertex.y⟩ n.z)

/-- Amended claim-side function for C1: identical to `claimUV` except that
for a Z-dominant face the sign flip uses the opposite of the sign of the
dominant normal component (the code passes `-normal[2]`). -/
def amendedUV (vertex n : Vec3) (repeat_factor : ℚ) : Vec2 :=
  match claim_dominant_axis n with
  | 0 => v2smul repeat_factor (calc_single_uv ⟨vertex.z, vertex.y⟩ n.x)
  | 1 => v2smul repeat_factor (calc_single_uv ⟨vertex.x, vertex.z⟩ n.y)
  | _ => v2smul repeat_factor (calc_single_uv ⟨vertex.x, vertex.y⟩ (-n.z))

/-- C1 (counterexample): on the unscaled cube with repeat factor 1, the UV
produced by the code differs from the claim's description at vertex 0, which
lies on the `(0,0,1)` face: the code flips the U coordinate by the sign of
`-normal.z`, the claim by the sign of `normal.z`.  The code gives
`(1.5, -0.5)`, the claim pipeline gives `(-0.5, -0.5)`. -/
theorem calc_uv_z_sign_counterexample :
    (create_mesh ⟨1, 1, 1⟩ ⟨0, 0, 0⟩ 1).uvs.getD 0 ⟨0, 0⟩ = ⟨3/2, -1/2⟩ ∧
    claimUV ((create_mesh ⟨1, 1, 1⟩ ⟨0, 0, 0⟩ 1).positions.getD 0 ⟨0, 0, 0⟩)
        ((create_mesh ⟨1, 1, 1⟩ ⟨0, 0, 0⟩ 1).normals.getD 0 ⟨0, 0, 0⟩) 1 =
      ⟨-1/2, -1/2⟩ ∧
    (⟨3/2, -1/2⟩ : Vec2) ≠ ⟨-1/2, -1/2⟩ := by
  refine ⟨?_, ?_, by norm_num⟩
  · rw [show (create_mesh ⟨1, 1, 1⟩ ⟨0, 0, 0⟩ 1).uvs.getD 0 ⟨0, 0⟩ =
        v2smul 1 (calc_uv (norm_to_axis ⟨0, 0, 1⟩)
          (v3add (mul_elements ⟨1, 1, 1⟩ ⟨-1/2, -1/2, 1/2⟩) ⟨0, 0, 0⟩) ⟨0, 0, 1⟩) from rfl]
    norm_num [calc_uv, norm_to_axis, qabs, qsign, calc_single_uv, v2smul, v3add, mul_elements]
  · rw [show (create_mesh ⟨1, 1, 1⟩ ⟨0, 0, 0⟩ 1).positions.getD 0 ⟨0, 0, 0⟩ =
        v3add (mul_elements ⟨1, 1, 1⟩ ⟨-1/2, -1/2, 1/2⟩) ⟨0, 0, 0⟩ from rfl,
      show (create_mesh ⟨1, 1, 1⟩ ⟨0, 0, 0⟩ 1).normals.getD 0 ⟨0, 0, 0⟩ = ⟨0, 0, 1⟩ from rfl]
    norm_num [claimUV, claim_dominant_axis, qabs, qsign, calc_single_uv, v2smul, v3add,
      mul_elements]

/-- On the `(0, 0, 1)` face, code UV equals the amended claim formula. -/
theorem uv_face_far (v : Vec3) (ts : ℚ) :
    v2smul ts (calc_uv (norm_to_axis ⟨0, 0, 1⟩) v ⟨0, 0, 1⟩) = amendedUV v ⟨0, 0, 1⟩ ts := by
  have hax : norm_to_axis ⟨0, 0, 1⟩ = 2 := by decide
  have hcx : claim_dominant_axis ⟨0, 0, 1⟩ = 2 := by decide
  rw [hax]
  unfold amendedUV
  rw [hcx]
  rfl

/-- On the `(0, 0, -1)` face, code UV equals the amended claim formula. -/
theorem uv_face_near (v : Vec3) (ts : ℚ) :
    v2smul ts (calc_uv (norm_to_axis ⟨0, 0, -1⟩) v ⟨0, 0, -1⟩) = amendedUV v ⟨0, 0, -1⟩ ts := by
  have hax : norm_to_axis ⟨0, 0, -1⟩ = 2 := by decide
  have hcx : claim_dominant_axis ⟨0, 0, -1⟩ = 2 := by decide
  rw [hax]
  unfold amendedUV
  rw [hcx]
  rfl

/-- On the `(1, 0, 0)` face, code UV equals the amended claim formula. -/
theorem uv_face_right (v : Vec3) (ts : ℚ) :
    v2smul ts (calc_uv (norm_to_axis ⟨1, 0, 0⟩) v ⟨1, 0, 0⟩) = amendedUV v ⟨1, 0, 0⟩ ts := by
  have hax : norm_to_axis ⟨1, 0, 0⟩ = 0 := by decide
  have hcx : claim_dominant_axis ⟨1, 0, 0⟩ = 0 := by decide
  rw [hax]
  unfold amendedUV
  rw [hcx]
  rfl

/-- On the `(-1, 0, 0)` face, code UV equals the amended claim formula. -/
theorem uv_face_left (v : Vec3) (ts : ℚ) :
    v2smul ts (calc_uv (norm_to_axis ⟨-1, 0, 0⟩) v ⟨-1, 0, 0⟩) = amendedUV v ⟨-1, 0, 0⟩ ts := by
  have hax : norm_to_axis ⟨-1, 0, 0⟩ = 0 := by decide
  have hcx : claim_dominant_axis ⟨-1, 0, 0⟩ = 0 := by decide
  rw [hax]
  unfold amendedUV
  rw [hcx]
  rfl

/-- On the `(0, 1, 0)` face, code UV equals the amended claim formula. -/
theorem uv_face_top (v : Vec3) (ts : ℚ) :
    v2smul ts (calc_uv (norm_to_axis ⟨0, 1, 0⟩) v ⟨0, 1, 0⟩) = amendedUV v ⟨0, 1, 0⟩ ts := by
  have hax : norm_to_axis ⟨0, 1, 0⟩ = 1 := by decide
  have hcx : claim_dominant_axis ⟨0, 1, 0⟩ = 1 := by decide
  rw [hax]
  unfold amendedUV
  rw [hcx]
  rfl

/-- On the `(0, -1, 0)` face, code UV equals the amended claim formula. -/
theorem uv_face_bottom (v : Vec3) (ts : ℚ) :
    v2smul ts (calc_uv (norm_to_axis ⟨0, -1, 0⟩) v ⟨0, -1, 0⟩) = amendedUV v ⟨0, -1, 0⟩ ts := by
  have hax : norm_to_axis ⟨0, -1, 0⟩ = 1 := by decide
  have hcx : claim_dominant_axis ⟨0, -1, 0⟩ = 1 := by decide
  rw [hax]
  unfold amendedUV
  rw [hcx]
  rfl

/-- C1 (amended): for every scale, offset and repeat factor, each UV of the
cube mesh is obtained from the corresponding (scaled, offset) vertex and
face normal by: dominant axis of the normal (largest absolute component);
projection of the two remaining vertex coordinates; flipping the sign of
the first projected coordinate by the sign of the dominant normal component
for X- and Y-dominant faces and by the opposite sign for Z-dominant faces;
offsetting by `+0.25`; scaling by `2.0`; multiplying by the repeat factor. -/
theorem create_mesh_uv_formula (scale offset : Vec3) (repeat_factor : ℚ) :
    (create_mesh scale offset repeat_factor).uvs =
      (((create_mesh scale offset repeat_factor).positions).zip
          (create_mesh scale offset repeat_factor).normals).map
        (fun vn => amendedUV vn.1 vn.2 repeat_factor) := by
  show calc_uvs _ _ _ = _
  simp only [create_mesh, calc_uvs, UNIT_CUBE_VERTS, UNIT_CUBE_FACE_NORMALS,
    List.map_cons, List.map_nil, List.zip_cons_cons, List.zip_nil_right]
  simp only [uv_face_far, uv_face_near, uv_face_right, uv_face_left,
    uv_face_top, uv_face_bottom]

/-- Fuel-driven binary logarithm on naturals. -/
def log2fuel : ℕ → ℕ → ℕ
  | 0, _ => 0
  | fuel + 1, n => if n ≤ 1 then 0 else log2fuel fuel (n / 2) + 1

/-- Floor base-2 logarithm of a natural number. -/
def natLog2 (n : ℕ) : ℕ := log2fuel n n

theorem log2fuel_spec (fuel : ℕ) : ∀ n : ℕ, 1 ≤ n → n ≤ fuel →
    2 ^ log2fuel fuel n ≤ n ∧ n < 2 ^ (log2fuel fuel n + 1) := by
  induction fuel with
  | zero => intro n h1 h2; exact absurd h2 (by omega)
  | succ fuel ih =>
    intro n h1 h2
    rw [log2fuel]
    by_cases hn : n ≤ 1
    · have : n = 1 := by omega
      subst this
      simp
    · simp only [hn, if_false]
      have hd1 : 1 ≤ n / 2 := by omega
      have hdf : n / 2 ≤ fuel := by omega
      obtain ⟨ha, hb⟩ := ih (n / 2) hd1 hdf
      rw [pow_succ, pow_succ] at *
      constructor
      · omega
      · omega

theorem natLog2_spec (n : ℕ) (h : 1 ≤ n) :
    2 ^ natLog2 n ≤ n ∧ n < 2 ^ (natLog2 n + 1) := log2fuel_spec n n h le_rfl

theorem qabs_eq_abs (x : ℚ) : qabs x = |x| := by
  unfold qabs
  split_ifs with h
  · exact (abs_of_neg h).symm
  · exact (abs_of_nonneg (not_lt.mp h)).symm

/-- Floor base-2 logarithm of a positive rational: first guess from the
logarithms of numerator and denominator, then a one-step correction. -/
def log2floorQ (q : ℚ) : ℤ :=
  if (2 : ℚ) ^ ((natLog2 q.num.natAbs : ℤ) - (natLog2 q.den : ℤ)) ≤ q
  then (natLog2 q.num.natAbs : ℤ) - (natLog2 q.den : ℤ)
  else (natLog2 q.num.natAbs : ℤ) - (natLog2 q.den : ℤ) - 1

theorem log2floorQ_spec (q : ℚ) (hq : 0 < q) :
    (2 : ℚ) ^ log2floorQ q ≤ q ∧ q < 2 ^ (log2floorQ q + 1) := by
  have hnum : 0 < q.num := Rat.num_pos.mpr hq
  have hn1 : 1 ≤ q.num.natAbs := by omega
  have hd1 : 1 ≤ q.den := q.pos
  obtain ⟨hna, hnb⟩ := natLog2_spec _ hn1
  obtain ⟨hda, hdb⟩ := natLog2_spec _ hd1
  set Ln := natLog2 q.num.natAbs with hLn
  set Ld := natLog2 q.den with hLd
  -- cast the nat bounds into ℚ
  have hnaQ : (2 : ℚ) ^ (Ln : ℤ) ≤ (q.num.natAbs : ℚ) := by
    rw [zpow_natCast]; exact_mod_cast hna
  have hnbQ : (q.num.natAbs : ℚ) < (2 : ℚ) ^ ((Ln : ℤ) + 1) := by
    rw [show (Ln : ℤ) + 1 = ((Ln + 1 : ℕ) : ℤ) by push_cast; ring, zpow_natCast]
    exact_mod_cast hnb
  have hdaQ : (2 : ℚ) ^ (Ld : ℤ) ≤ (q.den : ℚ) := by
    rw [zpow_natCast]; exact_mod_cast hda
  have hdbQ : (q.den : ℚ) < (2 : ℚ) ^ ((Ld : ℤ) + 1) := by
    rw [show (Ld : ℤ) + 1 = ((Ld + 1 : ℕ) : ℤ) by push_cast; ring, zpow_natCast]
    exact_mod_cast hdb
  have hnumQ : ((q.num.natAbs : ℚ)) = (q.num : ℚ) := by
    rw [Int.cast_natAbs]
    exact_mod_cast abs_of_nonneg hnum.le
  have hqd : q = (q.num : ℚ) / (q.den : ℚ) := (Rat.num_div_den q).symm
  have hdpos : (0 : ℚ) < (q.den : ℚ) := by exact_mod_cast hd1
  have h2pos : ∀ k : ℤ, (0 : ℚ) < 2 ^ k := fun k => zpow_pos (by norm_num) k
  -- upper bound: q < 2 ^ (a + 1)
  have hup : q < 2 ^ ((Ln : ℤ) - (Ld : ℤ) + 1) := by
    have step : q < (2 : ℚ) ^ ((Ln : ℤ) + 1) / (2 : ℚ) ^ (Ld : ℤ) := by
      rw [hqd, ← hnumQ, div_lt_div_iff₀ hdpos (h2pos _)]
      nlinarith [h2pos ((Ln : ℤ) + 1), h2pos (Ld : ℤ), hnbQ, hdaQ,
        mul_le_mul_of_nonneg_left hdaQ (le_of_lt (h2pos ((Ln : ℤ) + 1)))]
    calc q < (2 : ℚ) ^ ((Ln : ℤ) + 1) / (2 : ℚ) ^ (Ld : ℤ) := step
      _ = 2 ^ ((Ln : ℤ) - (Ld : ℤ) + 1) := by
        rw [← zpow_sub₀ (by norm_num : (2:ℚ) ≠ 0)]
        ring_nf
  -- lower bound: 2 ^ (a - 1) < q
  have hlo : (2 : ℚ) ^ ((Ln : ℤ) - (Ld : ℤ) - 1) < q := by
    have step : (2 : ℚ) ^ (Ln : ℤ) / (2 : ℚ) ^ ((Ld : ℤ) + 1) < q := by
      rw [hqd, ← hnumQ, div_lt_div_iff₀ (h2pos _) hdpos]
      nlinarith [h2pos (Ln : ℤ), h2pos ((Ld : ℤ) + 1), hnaQ, hdbQ,
        mul_le_mul_of_nonneg_right hnaQ (le_of_lt hdpos)]
    calc (2 : ℚ) ^ ((Ln : ℤ) - (Ld : ℤ) - 1)
        = (2 : ℚ) ^ (Ln : ℤ) / (2 : ℚ) ^ ((Ld : ℤ) + 1) := by
          rw [← zpow_sub₀ (by norm_num : (2:ℚ) ≠ 0)]
          ring_nf
      _ < q := step
  unfold log2floorQ
  split_ifs with h
  · exact ⟨h, hup⟩
  · constructor
    · exact hlo.le
    · rw [sub_add_cancel]
      exact not_le.mp h

theorem log2floor_unique {q : ℚ} {L1 L2 : ℤ} (h1a : (2 : ℚ) ^ L1 ≤ q)
    (h1b : q < 2 ^ (L1 + 1)) (h2a : (2 : ℚ) ^ L2 ≤ q) (h2b : q < 2 ^ (L2 + 1)) :
    L1 = L2 := by
  by_contra h
  rcases lt_or_gt_of_ne h with hlt | hgt
  · have : (2 : ℚ) ^ (L1 + 1) ≤ 2 ^ L2 := by
      apply zpow_le_zpow_right₀ (by norm_num)
      omega
    linarith
  · have : (2 : ℚ) ^ (L2 + 1) ≤ 2 ^ L1 := by
      apply zpow_le_zpow_right₀ (by norm_num)
      omega
    linarith

theorem log2floorQ_eq (q : ℚ) (L : ℤ) (hq : 0 < q) (h1 : (2 : ℚ) ^ L ≤ q)
    (h2 : q < 2 ^ (L + 1)) : log2floorQ q = L :=
  log2floor_unique (log2floorQ_spec q hq).1 (log2floorQ_spec q hq).2 h1 h2

/-- Round a rational to the nearest integer, ties to even. -/
def nearestEven (q : ℚ) : ℤ :=
  if q - ⌊q⌋ < 1/2 then ⌊q⌋
  else if (1 : ℚ)/2 < q - ⌊q⌋ then ⌊q⌋ + 1
  else if 2 ∣ ⌊q⌋ then ⌊q⌋ else ⌊q⌋ + 1

theorem nearestEven_intCast (m : ℤ) : nearestEven (m : ℚ) = m := by
  unfold nearestEven
  rw [Int.floor_intCast]
  norm_num

/-- The exponent at which IEEE binary32 round-to-nearest quantizes a
nonzero rational: 23 below the floor log, clamped at the subnormal
exponent -149. -/
def expF32 (q : ℚ) : ℤ := max (-149) (log2floorQ (qabs q) - 23)

/-- IEEE-754 binary32 round to nearest, ties to even, of a rational value.
Overflow to infinity is not modelled (no claim exercises values near the
largest finite f32). -/
def roundF32 (q : ℚ) : ℚ :=
  if q = 0 then 0
  else (if q < 0 then (-1 : ℚ) else 1) *
    (nearestEven (qabs q / 2 ^ expF32 q) : ℚ) * 2 ^ expF32 q

/-- A rational is a finite f32 value: an integer mantissa below `2^24`
scaled by a power of two no smaller than the least subnormal exponent. -/
def FinF32 (q : ℚ) : Prop :=
  ∃ m e : ℤ, |m| < 2 ^ 24 ∧ -149 ≤ e ∧ q = (m : ℚ) * 2 ^ e

theorem FinF32_mk (m e : ℤ) (hm : |m| < 2 ^ 24) (he : -149 ≤ e) :
    FinF32 ((m : ℚ) * 2 ^ e) := ⟨m, e, hm, he, rfl⟩

/-- Rounding is the identity on representable (finite f32) rationals. -/
theorem roundF32_eq_self {q : ℚ} (h : FinF32 q) : roundF32 q = q := by
  obtain ⟨m, e, hm, he, rfl⟩ := h
  by_cases hm0 : m = 0
  · subst hm0
    simp [roundF32]
  · have h2e : (0 : ℚ) < 2 ^ e := zpow_pos (by norm_num) e
    have hmQ : ((m : ℚ)) ≠ 0 := Int.cast_ne_zero.mpr hm0
    have hq0 : (m : ℚ) * 2 ^ e ≠ 0 := mul_ne_zero hmQ (ne_of_gt h2e)
    have habs : qabs ((m : ℚ) * 2 ^ e) = ((|m| : ℤ) : ℚ) * 2 ^ e := by
      rw [qabs_eq_abs, abs_mul, abs_of_pos h2e, Int.cast_abs]
    have habs_pos : 0 < qabs ((m : ℚ) * 2 ^ e) := by
      rw [qabs_eq_abs]
      exact abs_pos.mpr hq0
    obtain ⟨hLa, hLb⟩ := log2floorQ_spec _ habs_pos
    have hmabs1 : (1 : ℤ) ≤ |m| := Int.one_le_abs hm0
    have hub : qabs ((m : ℚ) * 2 ^ e) < 2 ^ ((24 : ℤ) + e) := by
      rw [habs, zpow_add₀ (by norm_num : (2:ℚ) ≠ 0)]
      have hmQlt : ((|m| : ℤ) : ℚ) < 2 ^ (24 : ℤ) := by
        rw [show ((2:ℚ) ^ (24:ℤ)) = ((2 ^ 24 : ℤ) : ℚ) by push_cast; norm_num]
        exact_mod_cast hm
      exact mul_lt_mul_of_pos_right hmQlt h2e
    have hLe : log2floorQ (qabs ((m : ℚ) * 2 ^ e)) - 23 ≤ e := by
      have h1 : (2 : ℚ) ^ log2floorQ (qabs ((m : ℚ) * 2 ^ e)) < 2 ^ ((24 : ℤ) + e) :=
        lt_of_le_of_lt hLa hub
      have h2 : log2floorQ (qabs ((m : ℚ) * 2 ^ e)) < 24 + e :=
        (zpow_lt_zpow_iff_right₀ (by norm_num : (1:ℚ) < 2)).mp h1
      omega
    have hEe : expF32 ((m : ℚ) * 2 ^ e) ≤ e := max_le he hLe
    set E := expF32 ((m : ℚ) * 2 ^ e) with hE
    have hkeq : ((e - E).toNat : ℤ) = e - E := Int.toNat_of_nonneg (by omega)
    have hint : qabs ((m : ℚ) * 2 ^ e) / 2 ^ E = ((|m| * 2 ^ (e - E).toNat : ℤ) : ℚ) := by
      rw [habs]
      rw [div_eq_iff (ne_of_gt (zpow_pos (by norm_num : (0:ℚ) < 2) E))]
      push_cast
      rw [← zpow_natCast (2 : ℚ) (e - E).toNat, hkeq]
      rw [mul_assoc, ← zpow_add₀ (by norm_num : (2:ℚ) ≠ 0), sub_add_cancel]
    have hsplit : ((|m| * 2 ^ (e - E).toNat : ℤ) : ℚ) * 2 ^ E = |(m : ℚ)| * 2 ^ e := by
      push_cast
      rw [← zpow_natCast (2 : ℚ) (e - E).toNat, hkeq, mul_assoc,
        ← zpow_add₀ (by norm_num : (2:ℚ) ≠ 0), sub_add_cancel]
    have hsign : (if (m : ℚ) * 2 ^ e < 0 then (-1 : ℚ) else 1) * |(m : ℚ)| = (m : ℚ) := by
      rcases lt_trichotomy m 0 with h | h | h
      · have hq : (m : ℚ) * 2 ^ e < 0 :=
          mul_neg_of_neg_of_pos (by exact_mod_cast h) h2e
        rw [if_pos hq, abs_of_neg (show (m : ℚ) < 0 by exact_mod_cast h)]
        ring
      · exact absurd h hm0
      · have hq : 0 < (m : ℚ) * 2 ^ e := mul_pos (by exact_mod_cast h) h2e
        rw [if_neg (not_lt.mpr hq.le),
          abs_of_pos (show (0 : ℚ) < (m : ℚ) by exact_mod_cast h)]
        ring
    rw [roundF32, if_neg hq0, ← hE, hint, nearestEven_intCast, mul_assoc, hsplit,
      ← mul_assoc, hsign]

/-- f32 multiplication: exact product, rounded. -/
def fmul (a b : ℚ) : ℚ := roundF32 (a * b)

/-- f32 subtraction: exact difference, rounded. -/
def fsub (a b : ℚ) : ℚ := roundF32 (a - b)

/-- The `WallKind::Window` branch of `draw_wall_section`:
`opening_height = height * 0.5`, `top_height = height * 0.25`,
`bottom_height = height - opening_height - top_height`, in f32 arithmetic.
Returned as `(top, opening, bottom)`. -/
def windowHeights (height : ℚ) : ℚ × ℚ × ℚ :=
  let opening_height := fmul height (1/2)
  let top_height := fmul height (1/4)
  let bottom_height := fsub (fsub height opening_height) top_height
  (top_height, opening_height, bottom_height)

/-- The `WallKind::Door` branch of `draw_wall_section`:
`opening_height = height * 0.75`, `top_height = height - opening_height`,
in f32 arithmetic.  Returned as `(top, opening)`. -/
def doorHeights (height : ℚ) : ℚ × ℚ :=
  let opening_height := fmul height (3/4)
  let top_height := fsub height opening_height
  (top_height, opening_height)

/-- C3 (counterexample): at the f32 wall-section height `H = 16777215.0`
(mantissa `2^24 - 1`, a representable finite f32), the Door opening height
computed by the code is `round(0.75 * H) = 12582911`, not `0.75 * H =
12582911.25`: the multiplication by `0.75` rounds. -/
theorem door_heights_counterexample :
    FinF32 (16777215 : ℚ) ∧
    (doorHeights 16777215).2 ≠ 3/4 * 16777215 := by
  constructor
  · exact ⟨16777215, 0, by norm_num, by norm_num, by norm_num⟩
  · have harg : (16777215 : ℚ) * (3/4) = 50331645/4 := by norm_num
    have habs : qabs (50331645/4 : ℚ) = 50331645/4 := by norm_num [qabs]
    have hL : log2floorQ (qabs (50331645/4 : ℚ)) = 23 := by
      rw [habs]
      exact log2floorQ_eq _ 23 (by norm_num) (by norm_num) (by norm_num)
    have hE : expF32 (50331645/4 : ℚ) = 0 := by
      rw [expF32, hL]
      norm_num
    have hfloor : ⌊(50331645/4 : ℚ)⌋ = 12582911 := by norm_num
    have hne : nearestEven (50331645/4 : ℚ) = 12582911 := by
      unfold nearestEven
      rw [hfloor]
      norm_num
    have hval : (doorHeights 16777215).2 = 12582911 := by
      show fmul 16777215 (3/4) = 12582911
      rw [fmul, harg, roundF32, if_neg (by norm_num), if_neg (by norm_num),
        hE, habs, zpow_zero, div_one, hne]
      norm_num
    rw [hval]
    norm_num

/-- C3 (amended): for every wall-section height `H` that is a finite f32
value whose mantissa is divisible by 4 (so that quarters of `H` are exactly
representable): the Window branch computes top, opening and bottom heights
exactly `0.25 H`, `0.5 H` and `0.25 H`, summing exactly to `H`; the Door
branch computes lintel exactly `0.25 H` and opening exactly `0.75 H`,
summing exactly to `H`. -/
theorem wall_section_heights_exact (H : ℚ) (m e : ℤ) (hmod : 4 ∣ m)
    (hm : |m| < 2 ^ 24) (he : -149 ≤ e) (hH : H = (m : ℚ) * 2 ^ e) :
    windowHeights H = (H/4, H/2, H/4) ∧ H/4 + H/2 + H/4 = H ∧
    doorHeights H = (H/4, 3/4 * H) ∧ H/4 + 3/4 * H = H := by
  obtain ⟨n, rfl⟩ := hmod
  have habs4 : |4 * n| = 4 * |n| := by
    rw [abs_mul]
    norm_num
  have hn : |n| < 2 ^ 22 := by omega
  have habs2 : |2 * n| = 2 * |n| := by
    rw [abs_mul]
    norm_num
  have habs3 : |3 * n| = 3 * |n| := by
    rw [abs_mul]
    norm_num
  have hop : fmul H (1/2) = H * (1/2) := by
    have hv : H * (1/2) = ((2 * n : ℤ) : ℚ) * 2 ^ e := by
      rw [hH]
      push_cast
      ring
    have hv2 : H * (1/2) = ((2 * n : ℤ) : ℚ) * 2 ^ e := by
      rw [hH]
      push_cast
      ring
    calc fmul H (1/2) = roundF32 (H * (1/2)) := rfl
      _ = roundF32 (((2 * n : ℤ) : ℚ) * 2 ^ e) := by rw [hv]
      _ = ((2 * n : ℤ) : ℚ) * 2 ^ e := roundF32_eq_self (FinF32_mk (2 * n) e (by omega) he)
      _ = H * (1/2) := hv2.symm
  have htop : fmul H (1/4) = H * (1/4) := by
    have hv : H * (1/4) = ((n : ℤ) : ℚ) * 2 ^ e := by
      rw [hH]
      push_cast
      ring
    have hv2 : H * (1/4) = ((n : ℤ) : ℚ) * 2 ^ e := by
      rw [hH]
      push_cast
      ring
    calc fmul H (1/4) = roundF32 (H * (1/4)) := rfl
      _ = roundF32 (((n : ℤ) : ℚ) * 2 ^ e) := by rw [hv]
      _ = ((n : ℤ) : ℚ) * 2 ^ e := roundF32_eq_self (FinF32_mk (n) e (by omega) he)
      _ = H * (1/4) := hv2.symm
  have hsub1 : fsub H (H * (1/2)) = H * (1/2) := by
    have hv : H - H * (1/2) = ((2 * n : ℤ) : ℚ) * 2 ^ e := by
      rw [hH]
      push_cast
      ring
    have hv2 : H * (1/2) = ((2 * n : ℤ) : ℚ) * 2 ^ e := by
      rw [hH]
      push_cast
      ring
    calc fsub H (H * (1/2)) = roundF32 (H - H * (1/2)) := rfl
      _ = roundF32 (((2 * n : ℤ) : ℚ) * 2 ^ e) := by rw [hv]
      _ = ((2 * n : ℤ) : ℚ) * 2 ^ e := roundF32_eq_self (FinF32_mk (2 * n) e (by omega) he)
      _ = H * (1/2) := hv2.symm
  have hbot : fsub (H * (1/2)) (H * (1/4)) = H * (1/4) := by
    have hv : H * (1/2) - H * (1/4) = ((n : ℤ) : ℚ) * 2 ^ e := by
      rw [hH]
      push_cast
      ring
    have hv2 : H * (1/4) = ((n : ℤ) : ℚ) * 2 ^ e := by
      rw [hH]
      push_cast
      ring
    calc fsub (H * (1/2)) (H * (1/4)) = roundF32 (H * (1/2) - H * (1/4)) := rfl
      _ = roundF32 (((n : ℤ) : ℚ) * 2 ^ e) := by rw [hv]
      _ = ((n : ℤ) : ℚ) * 2 ^ e := roundF32_eq_self (FinF32_mk (n) e (by omega) he)
      _ = H * (1/4) := hv2.symm
  have hopd : fmul H (3/4) = H * (3/4) := by
    have hv : H * (3/4) = ((3 * n : ℤ) : ℚ) * 2 ^ e := by
      rw [hH]
      push_cast
      ring
    have hv2 : H * (3/4) = ((3 * n : ℤ) : ℚ) * 2 ^ e := by
      rw [hH]
      push_cast
      ring
    calc fmul H (3/4) = roundF32 (H * (3/4)) := rfl
      _ = roundF32 (((3 * n : ℤ) : ℚ) * 2 ^ e) := by rw [hv]
      _ = ((3 * n : ℤ) : ℚ) * 2 ^ e := roundF32_eq_self (FinF32_mk (3 * n) e (by omega) he)
      _ = H * (3/4) := hv2.symm
  have htopd : fsub H (H * (3/4)) = H * (1/4) := by
    have hv : H - H * (3/4) = ((n : ℤ) : ℚ) * 2 ^ e := by
      rw [hH]
      push_cast
      ring
    have hv2 : H * (1/4) = ((n : ℤ) : ℚ) * 2 ^ e := by
      rw [hH]
      push_cast
      ring
    calc fsub H (H * (3/4)) = roundF32 (H - H * (3/4)) := rfl
      _ = roundF32 (((n : ℤ) : ℚ) * 2 ^ e) := by rw [hv]
      _ = ((n : ℤ) : ℚ) * 2 ^ e := roundF32_eq_self (FinF32_mk (n) e (by omega) he)
      _ = H * (1/4) := hv2.symm
  refine ⟨?_, by ring, ?_, by ring⟩
  · show (fmul H (1/4), fmul H (1/2),
        fsub (fsub H (fmul H (1/2))) (fmul H (1/4))) = (H/4, H/2, H/4)
    rw [hop, htop, hsub1, hbot, show H * (1/4) = H/4 by ring,
      show H * (1/2) = H/2 by ring]
  · show (fsub H (fmul H (3/4)), fmul H (3/4)) = (H/4, 3/4 * H)
    rw [hopd, htopd, show H * (1/4) = H/4 by ring, show H * (3/4) = 3/4 * H by ring]

/-- C3 (witness): at `H = 4` the Window heights are `(1, 2, 1)` and the
Door heights `(1, 3)`. -/
theorem wall_section_heights_exact_witness :
    windowHeights 4 = (1, 2, 1) ∧ doorHeights 4 = (1, 3) := by
  have h := wall_section_heights_exact 4 4 0 ⟨1, by norm_num⟩ (by norm_num)
    (by norm_num) (by norm_num)
  constructor
  · rw [h.1]
    norm_num
  · rw [h.2.2.1]
    norm_num

/-- A decoded RGBA image (`image::RgbaImage`): the pixel contents are
irrelevant to every claim, so images are opaque identifiers. -/
abbrev RgbaImage := ℕ

/-- An engine-resident 2D texture, as registered by
`create_texture_from_rgba` in solids.rs: a label and the source image. -/
structure Texture where
  label : String
  data : RgbaImage
deriving DecidableEq, Repr

/-- The PBR material built by `create_simple_material` in solids.rs: albedo
and normal textures.  The constant scalar parameters (ao, metallic,
roughness, identity UV transforms) are omitted: no claim depends on them. -/
structure Material where
  albedo : Texture
  normal : Texture
deriving DecidableEq, Repr

/-- A renderer registration call that allocates a GPU resource and returns
a handle: `add_mesh`, `add_material`, `add_texture_2d` or `add_object`.
The draw functions emit the calls they make, in order. -/
inductive RenderOp where
  | addMesh (m : Mesh)
  | addMaterial (mat : Material)
  | addTexture (t : Texture)
  | addObject
deriving DecidableEq, Repr

/-- A quaternion (`glam::Quat`), as a 4-tuple of rationals. -/
structure Quat where
  x : ℚ
  y : ℚ
  z : ℚ
  w : ℚ
deriving DecidableEq, Repr

/-- `Quat::IDENTITY`. -/
def qIdentity : Quat := ⟨0, 0, 0, 1⟩

/-- The glam quaternion operations used by citybuilder.rs: quaternion
product, rotation of a vector, and `Quat::from_rotation_y`.  glam is an
external collaborator and its f32 trigonometry is not specified by this
repository, so the operations are parameters; every theorem below holds
for all implementations. -/
structure QuatOps where
  mul : Quat → Quat → Quat
  app : Quat → Vec3 → Vec3
  fromRotY : ℚ → Quat

/-- The f32 value of `core::f32::consts::PI` (`0x40490FDB`). -/
def PI32 : ℚ := 13176795/4194304

/-- `TextureSet` from citybuilder.rs: `(albedo, normal, scale)`. -/
abbrev TextureSet := Texture × Texture × ℚ

/-- An `Object` as returned by `create_simple_block`: a static mesh, a
material, and the transform (unit scale, rotation, translation). -/
structure Object where
  mesh : Mesh
  material : Material
  rot : Quat
  pos : Vec3
deriving DecidableEq, Repr

/-- `create_simple_material` from solids.rs: registers one PBR material
(`renderer.add_material`) built from the two texture handles. -/
def create_simple_material (albedo_handle normal_handle : Texture) :
    List RenderOp × Material :=
  ([RenderOp.addMaterial ⟨albedo_handle, normal_handle⟩], ⟨albedo_handle, normal_handle⟩)

/-- `create_simple_block` from solids.rs: builds the material (one
`add_material` call), the cube mesh (one `add_mesh` call) and returns the
`Object` descriptor.  `add_object` is NOT called here: the object itself
is registered by the caller. -/
def create_simple_block (scale offset pos : Vec3) (rot : Quat)
    (texture_info : TextureSet) : List RenderOp × Object :=
  let mat := create_simple_material texture_info.1 texture_info.2.1
  let mesh := create_mesh scale offset texture_info.2.2
  (mat.1 ++ [RenderOp.addMesh mesh], ⟨mesh, mat.2, rot, pos⟩)

/-- `create_texture_from_rgba` from solids.rs: registers one 2D texture
(`renderer.add_texture_2d`). -/
def create_texture_from_rgba (label : String) (rgba : RgbaImage) :
    List RenderOp × Texture :=
  ([RenderOp.addTexture ⟨label, rgba⟩], ⟨label, rgba⟩)

/-- `WallKind` from citybuilder.rs. -/
inductive WallKind where
  | None
  | Solid
  | Door
  | Window
deriving DecidableEq, Repr

/-- `TextureSetRgba` from citybuilder.rs: CPU-side albedo and normal
images plus the texture-repeat scale. -/
structure TextureSetRgba where
  albedo : RgbaImage
  normal : RgbaImage
  texture_scale : ℚ
deriving DecidableEq, Repr

/-- `TextureSetRgbaMap`: the loaded texture table, keyed by name.
`HashMap` lookups are modelled by the map function itself (insertion of a
key overwrites, as in the source). -/
abbrev TextureSetRgbaMap := String → Option TextureSetRgba

/-- `CityTextures` from citybuilder.rs: the engine-resident texture sets
for the six semantic roles. -/
structure CityTextures where
  stone : TextureSet
  brick : TextureSet
  floor : TextureSet
  ceiling : TextureSet
  roof : TextureSet
  ground : TextureSet
deriving DecidableEq, Repr

/-- The `make_textures` closure of `CityTextures::new_from_map`: registers
the albedo and the normal image under the given label and returns the
texture set. -/
def make_textures (label : String) (item : TextureSetRgba) :
    List RenderOp × TextureSet :=
  let a := create_texture_from_rgba label item.albedo
  let n := create_texture_from_rgba label item.normal
  (a.1 ++ n.1, (a.2, n.2, item.texture_scale))

/-- The `get_textures` closure of `CityTextures::new_from_map`:
`rgbas.get(key).unwrap()`; the panic on a missing key is modelled as an
error. -/
def get_textures (rgbas : TextureSetRgbaMap) (key : String) :
    Except String (List RenderOp × TextureSet) :=
  match rgbas key with
  | some item => .ok (make_textures key item)
  | none => .error "called unwrap on a missing texture key"

/-- `CityTextures::new_from_map` from citybuilder.rs.  Note the last
field: the `ground` texture set is fetched with the key `"roof"`. -/
def CityTextures.new_from_map (rgbas : TextureSetRgbaMap) :
    Except String (List RenderOp × CityTextures) :=
  match get_textures rgbas "stone" with
  | .error msg => .error msg
  | .ok stone =>
  match get_textures rgbas "brick" with
  | .error msg => .error msg
  | .ok brick =>
  match get_textures rgbas "floor" with
  | .error msg => .error msg
  | .ok floor =>
  match get_textures rgbas "ceiling" with
  | .error msg => .error msg
  | .ok ceiling =>
  match get_textures rgbas "roof" with
  | .error msg => .error msg
  | .ok roof =>
  match get_textures rgbas "roof" with
  | .error msg => .error msg
  | .ok ground =>
    .ok (stone.1 ++ brick.1 ++ floor.1 ++ ceiling.1 ++ roof.1 ++ ground.1,
      ⟨stone.2, brick.2, floor.2, ceiling.2, roof.2, ground.2⟩)

/-- `draw_wall_section` from citybuilder.rs: one column in stone, then a
kind-dependent brick infill (nothing, a full wall, a door lintel, or a
window top band and bottom band).  The Window and Door height computations
use the explicit f32 rounding model (`windowHeights`, `doorHeights`); the
power-of-two scalings and the offset sums, which no claim inspects, are
modelled exactly. -/
def draw_wall_section (wall_kind : WallKind) (size pos : Vec3) (rot : Quat)
    (textures : CityTextures) : List RenderOp × List Object :=
  let width := size.x
  let thickness := size.z
  let height := size.y
  let column_thickness := thickness * 2
  let wall_width := width - column_thickness
  let column := create_simple_block ⟨column_thickness, height, column_thickness⟩
    ⟨0, height / 2, 0⟩ pos rot textures.stone
  match wall_kind with
  | WallKind.None => (column.1, [column.2])
  | WallKind.Solid =>
    let w := create_simple_block ⟨wall_width, height, thickness⟩
      ⟨(column_thickness + wall_width) / 2, height / 2, 0⟩ pos rot textures.brick
    (column.1 ++ w.1, [column.2, w.2])
  | WallKind.Door =>
    let h := doorHeights height
    let lintel := create_simple_block ⟨wall_width, h.1, thickness⟩
      ⟨(column_thickness + wall_width) / 2, h.2 + h.1 / 2, 0⟩ pos rot textures.brick
    (column.1 ++ lintel.1, [column.2, lintel.2])
  | WallKind.Window =>
    let h := windowHeights height
    let top := create_simple_block ⟨wall_width, h.1, thickness⟩
      ⟨(column_thickness + wall_width) / 2, h.2.2 + h.2.1 + h.1 / 2, 0⟩ pos rot textures.brick
    let bottom := create_simple_block ⟨wall_width, h.2.2, thickness⟩
      ⟨(column_thickness + wall_width) / 2, h.2.2 / 2, 0⟩ pos rot textures.brick
    (column.1 ++ top.1 ++ bottom.1, [column.2, top.2, bottom.2])

/-- `draw_floor_and_ceiling` from citybuilder.rs: a floor slab and a
ceiling slab, offset 45 and 55 percent of the slab thickness to avoid
z-fighting.  The decimal f32 literals `0.45` and `0.55` are modelled by
the exact rationals (no claim inspects these offsets). -/
def draw_floor_and_ceiling (height : ℚ) (size pos : Vec3) (rot : Quat)
    (textures : CityTextures) : List RenderOp × List Object :=
  let thickness := size.y
  let center := v3smul (1/2) size
  let fl := create_simple_block size (v3add center ⟨0, -(thickness * (9/20)), 0⟩)
    pos rot textures.floor
  let ce := create_simple_block size (v3add center ⟨0, height - thickness * (11/20), 0⟩)
    pos rot textures.ceiling
  (fl.1 ++ ce.1, [fl.2, ce.2])

/-- The `draw_one_face` closure of `draw_one_story`: one wall section at
`startpos + (itemrot * rot) * itemoffset`, rotated by `itemrot * rot`. -/
def draw_one_face (g : QuatOps) (size : Vec3) (rot : Quat)
    (textures : CityTextures) (startpos itemoffset : Vec3) (itemrot : Quat)
    (kind : WallKind) : List RenderOp × List Object :=
  draw_wall_section kind size (v3add startpos (g.app (g.mul itemrot rot) itemoffset))
    (g.mul itemrot rot) textures

/-- `draw_one_story` from citybuilder.rs: the four faces (front, right
side, back, left side, each enumerated bay by bay with rotations 0, -90,
-180 and -270 degrees about Y), then the floor and ceiling slabs.  The
angle products `-PI * 0.5` and `-PI * 1.5` use the f32 rounding model. -/
def draw_one_story (g : QuatOps) (front side : List WallKind) (size pos : Vec3)
    (rot : Quat) (textures : CityTextures) : List RenderOp × List Object :=
  let width := size.x
  let height := size.y
  let front_width := (front.length : ℚ) * width
  let side_width := (side.length : ℚ) * width
  let f1 := fun ik : ℕ × WallKind =>
    draw_one_face g size rot textures pos ⟨(ik.1 : ℚ) * width, 0, 0⟩ qIdentity ik.2
  let f2 := fun ik : ℕ × WallKind =>
    draw_one_face g size rot textures (v3add pos (g.app rot ⟨front_width, 0, 0⟩))
      ⟨(ik.1 : ℚ) * width, 0, 0⟩ (g.fromRotY (fmul (-PI32) (1/2))) ik.2
  let f3 := fun ik : ℕ × WallKind =>
    draw_one_face g size rot textures (v3add pos (g.app rot ⟨front_width, 0, side_width⟩))
      ⟨(ik.1 : ℚ) * width, 0, 0⟩ (g.fromRotY (-PI32)) ik.2
  let f4 := fun ik : ℕ × WallKind =>
    draw_one_face g size rot textures (v3add pos (g.app rot ⟨0, 0, side_width⟩))
      ⟨(ik.1 : ℚ) * width, 0, 0⟩ (g.fromRotY (fmul (-PI32) (3/2))) ik.2
  let fc := draw_floor_and_ceiling height ⟨front_width, 1/10, side_width⟩ pos rot textures
  ((front.enum.flatMap fun ik => (f1 ik).1) ++
      (side.enum.flatMap fun ik => (f2 ik).1) ++
      (front.enum.flatMap fun ik => (f3 ik).1) ++
      (side.enum.flatMap fun ik => (f4 ik).1) ++ fc.1,
    (front.enum.flatMap fun ik => (f1 ik).2) ++
      (side.enum.flatMap fun ik => (f2 ik).2) ++
      (front.enum.flatMap fun ik => (f3 ik).2) ++
      (side.enum.flatMap fun ik => (f4 ik).2) ++ fc.2)

/-- The wall-section geometry groups of one story: one group per bay per
face, front bays for the front and back faces, side bays for the right
and left faces, in the order the source draws them. -/
def storyWallGroups (g : QuatOps) (front side : List WallKind) (size pos : Vec3)
    (rot : Quat) (textures : CityTextures) : List (List RenderOp × List Object) :=
  let width := size.x
  let front_width := (front.length : ℚ) * width
  let side_width := (side.length : ℚ) * width
  (front.enum.map fun ik =>
    draw_one_face g size rot textures pos ⟨(ik.1 : ℚ) * width, 0, 0⟩ qIdentity ik.2) ++
  (side.enum.map fun ik =>
    draw_one_face g size rot textures (v3add pos (g.app rot ⟨front_width, 0, 0⟩))
      ⟨(ik.1 : ℚ) * width, 0, 0⟩ (g.fromRotY (fmul (-PI32) (1/2))) ik.2) ++
  (front.enum.map fun ik =>
    draw_one_face g size rot textures (v3add pos (g.app rot ⟨front_width, 0, side_width⟩))
      ⟨(ik.1 : ℚ) * width, 0, 0⟩ (g.fromRotY (-PI32)) ik.2) ++
  (side.enum.map fun ik =>
    draw_one_face g size rot textures (v3add pos (g.app rot ⟨0, 0, side_width⟩))
      ⟨(ik.1 : ℚ) * width, 0, 0⟩ (g.fromRotY (fmul (-PI32) (3/2))) ik.2)

/-- `draw_roof` from citybuilder.rs: a thin cap slab plus the four parapet
strips. -/
def draw_roof (height thickness : ℚ) (size pos : Vec3) (rot : Quat)
    (textures : CityTextures) : List RenderOp × List Object :=
  let center := v3add (v3smul (1/2) size) ⟨0, height, 0⟩
  let cap := create_simple_block ⟨size.x + thickness, thickness * (1/2), size.z + thickness⟩
    center pos rot textures.roof
  let fr := create_simple_block ⟨size.x + thickness * 3, thickness, thickness⟩
    (v3add center ⟨0, 0, -((size.z + 2 * thickness) * (1/2))⟩) pos rot textures.stone
  let bk := create_simple_block ⟨size.x + thickness * 3, thickness, thickness⟩
    (v3add center ⟨0, 0, (size.z + 2 * thickness) * (1/2)⟩) pos rot textures.stone
  let lf := create_simple_block ⟨thickness, thickness, size.z + thickness⟩
    (v3add center ⟨-((size.x + 2 * thickness) * (1/2)), 0, 0⟩) pos rot textures.stone
  let rt := create_simple_block ⟨thickness, thickness, size.z + thickness⟩
    (v3add center ⟨(size.x + 2 * thickness) * (1/2), 0, 0⟩) pos rot textures.stone
  (cap.1 ++ fr.1 ++ bk.1 ++ lf.1 ++ rt.1, [cap.2, fr.2, bk.2, lf.2, rt.2])

/-- `draw_building` from citybuilder.rs: one story per wall spec, stacked
at increasing heights, topped by a roof sized from the last (topmost)
story's bay counts; an empty spec draws nothing. -/
def draw_building (g : QuatOps) (wall_specs : List (List WallKind × List WallKind))
    (size pos : Vec3) (rot : Quat) (textures : CityTextures) :
    List RenderOp × List Object :=
  let width := size.x
  let height := size.y
  let thickness := size.z
  let stories := wall_specs.length
  match wall_specs with
  | [] => ([], [])
  | _ :: _ =>
    let front_bays := (wall_specs.getLastD ([], [])).1.length
    let side_bays := (wall_specs.getLastD ([], [])).2.length
    let front_width := (front_bays : ℚ) * width
    let side_width := (side_bays : ℚ) * width
    let storiesParts := wall_specs.enum.map (fun nspec =>
      draw_one_story g nspec.2.1 nspec.2.2 size
        (v3add pos (g.app rot ⟨0, height * (nspec.1 : ℚ), 0⟩)) rot textures)
    let roof := draw_roof (height * (stories : ℚ)) thickness
      ⟨front_width, 1/10, side_width⟩ pos rot textures
    ((storiesParts.map Prod.fst).flatten ++ roof.1,
      (storiesParts.map Prod.snd).flatten ++ roof.2)

/-- `BLDG_ROWS` from `draw_building_grid`. -/
def BLDG_ROWS : ℕ := 25

/-- `BLDG_SPACING` from `draw_building_grid`. -/
def BLDG_SPACING : ℚ := 10

/-- `WALL_WIDTH` from `draw_building_grid`. -/
def WALL_WIDTH : ℚ := 2

/-- `STORY_HEIGHT` from `draw_building_grid`. -/
def STORY_HEIGHT : ℚ := 3

/-- `bldg_initialpos` from `draw_building_grid`:
`(-BLDG_SPACING * BLDG_ROWS * 0.5, 0, -BLDG_SPACING * BLDG_ROWS * 0.5)`. -/
def bldg_initialpos : Vec3 :=
  ⟨-(BLDG_SPACING * (BLDG_ROWS : ℚ) * (1/2)), 0, -(BLDG_SPACING * (BLDG_ROWS : ℚ) * (1/2))⟩

/-- The building placement positions generated by the two nested loops of
`draw_building_grid`: row index over the caller-supplied range, column
index over `0..BLDG_ROWS`. -/
def grid_positions (lo hi : ℕ) : List Vec3 :=
  (List.range' lo (hi - lo)).flatMap (fun i : ℕ =>
    (List.range BLDG_ROWS).map (fun j : ℕ =>
      v3add ⟨(i : ℚ) * BLDG_SPACING, 0, (j : ℚ) * BLDG_SPACING⟩ bldg_initialpos))

/-- `draw_building_grid` from citybuilder.rs: one building per grid
position (wall thickness 0.2, modelled by the exact rational). -/
def draw_building_grid (g : QuatOps) (lo hi : ℕ)
    (wall_specs : List (List WallKind × List WallKind)) (textures : CityTextures) :
    List RenderOp × List Object :=
  let parts := (grid_positions lo hi).map (fun p =>
    draw_building g wall_specs ⟨WALL_WIDTH, STORY_HEIGHT, 1/5⟩ p qIdentity textures)
  ((parts.map Prod.fst).flatten, (parts.map Prod.snd).flatten)

/-- C4: `draw_one_story` on a front-bay list of length F and a side-bay
list of length S produces exactly `2F + 2S` wall-section geometry groups
(front and back each drawn from the F front bays, right and left each from
the S side bays), followed by exactly one floor slab and one ceiling slab:
its object output is the concatenation of those groups' objects plus the
two slabs, and each group is a `draw_wall_section` result. -/
theorem draw_one_story_groups (g : QuatOps) (front side : List WallKind)
    (size pos : Vec3) (rot : Quat) (textures : CityTextures) :
    (storyWallGroups g front side size pos rot textures).length
        = 2 * front.length + 2 * side.length ∧
    (draw_one_story g front side size pos rot textures).2 =
      ((storyWallGroups g front side size pos rot textures).map Prod.snd).flatten ++
        (draw_floor_and_ceiling size.y
          ⟨(front.length : ℚ) * size.x, 1/10, (side.length : ℚ) * size.x⟩
          pos rot textures).2 ∧
    (draw_floor_and_ceiling size.y
        ⟨(front.length : ℚ) * size.x, 1/10, (side.length : ℚ) * size.x⟩
        pos rot textures).2.length = 2 ∧
    ∀ grp ∈ storyWallGroups g front side size pos rot textures,
      ∃ kind pos2 rot2, grp = draw_wall_section kind size pos2 rot2 textures := by
  refine ⟨?_, ?_, rfl, ?_⟩
  · simp [storyWallGroups]
    ring
  · simp [draw_one_story, storyWallGroups, List.flatMap_def, Function.comp_def]
  · intro grp hgrp
    simp only [storyWallGroups, List.mem_append, List.mem_map] at hgrp
    rcases hgrp with ((⟨ik, _, h⟩ | ⟨ik, _, h⟩) | ⟨ik, _, h⟩) | ⟨ik, _, h⟩ <;>
      exact ⟨ik.2, _, _, h.symm⟩

/-- The claim's notion for C5: a list of coordinates has a bounding extent
symmetric about the origin when it lies in some `[-M, M]` with both
endpoints attained. -/
def extent_symmetric_about_origin (l : List ℚ) : Prop :=
  ∃ M : ℚ, 0 ≤ M ∧ (∀ x ∈ l, -M ≤ x ∧ x ≤ M) ∧ (-M) ∈ l ∧ M ∈ l

/-- Every placement coordinate of the full grid lies in `[-125, 115]`. -/
theorem grid_positions_bounds :
    ∀ p ∈ grid_positions 0 BLDG_ROWS,
      -125 ≤ p.x ∧ p.x ≤ 115 ∧ -125 ≤ p.z ∧ p.z ≤ 115 := by
  intro p hp
  rw [grid_positions] at hp
  obtain ⟨i, hi, hp2⟩ := List.mem_flatMap.mp hp
  obtain ⟨j, hj, rfl⟩ := List.mem_map.mp hp2
  rw [List.mem_range'] at hi
  rw [List.mem_range] at hj
  simp only [BLDG_ROWS] at hi hj
  have hi24 : i ≤ 24 := by omega
  have hj24 : j ≤ 24 := by omega
  have hiQ : (i : ℚ) ≤ 24 := by exact_mod_cast hi24
  have hjQ : (j : ℚ) ≤ 24 := by exact_mod_cast hj24
  have hiQ0 : (0 : ℚ) ≤ (i : ℚ) := Nat.cast_nonneg i
  have hjQ0 : (0 : ℚ) ≤ (j : ℚ) := Nat.cast_nonneg j
  simp only [v3add, bldg_initialpos, BLDG_SPACING, BLDG_ROWS]
  refine ⟨by norm_num, by norm_num; nlinarith,
    by norm_num, by norm_num; nlinarith⟩

/-- The corner placement `(-125, 0, -125)` is in the grid. -/
theorem grid_positions_corner_lo :
    (⟨-125, 0, -125⟩ : Vec3) ∈ grid_positions 0 BLDG_ROWS := by
  rw [grid_positions]
  refine List.mem_flatMap.mpr ⟨0, by decide, List.mem_map.mpr ⟨0, by decide, ?_⟩⟩
  simp only [v3add, bldg_initialpos, BLDG_SPACING, BLDG_ROWS]
  norm_num

/-- The opposite corner placement is `(115, 0, 115)`, not `(125, 0, 125)`. -/
theorem grid_positions_corner_hi :
    (⟨115, 0, 115⟩ : Vec3) ∈ grid_positions 0 BLDG_ROWS := by
  rw [grid_positions]
  refine List.mem_flatMap.mpr ⟨24, by decide, List.mem_map.mpr ⟨24, by decide, ?_⟩⟩
  simp only [v3add, bldg_initialpos, BLDG_SPACING, BLDG_ROWS]
  norm_num

set_option maxRecDepth 4000 in
/-- C5 (counterexample): the full `25 x 25` grid does produce `625`
placements, but their bounding extent is NOT symmetric about the origin:
the x-coordinates reach `-125 = -(BLDG_SPACING * 25 / 2)` on the low side
yet only `115 = 125 - BLDG_SPACING` on the high side. -/
theorem grid_not_origin_symmetric :
    (grid_positions 0 BLDG_ROWS).length = 625 ∧
    ¬ extent_symmetric_about_origin ((grid_positions 0 BLDG_ROWS).map Vec3.x) := by
  constructor
  · decide
  · rintro ⟨M, hM0, hbound, hneg, hpos⟩
    have h125 : (-125 : ℚ) ∈ (grid_positions 0 BLDG_ROWS).map Vec3.x :=
      List.mem_map.mpr ⟨_, grid_positions_corner_lo, rfl⟩
    have hMge : 125 ≤ M := by
      have := (hbound _ h125).1
      linarith
    have hMle : M ≤ 115 := by
      obtain ⟨p, hp, hpx⟩ := List.mem_map.mp hpos
      have h := (grid_positions_bounds p hp).2.1
      rw [hpx] at h
      exact h
    linarith

set_option maxRecDepth 4000 in
/-- C5 (amended): the full grid of `draw_building_grid` produces exactly
`25 * 25 = 625` building placements; their x and z coordinates span
`[-125, 115]`, both bounds attained, an extent symmetric about
`-BLDG_SPACING / 2 = -5` (so the union of the 10-unit grid cells,
`[-125, 125]`, is origin-symmetric, but the placement anchors are not);
and the grid objects are exactly one building per placement. -/
theorem draw_building_grid_placements :
    (grid_positions 0 BLDG_ROWS).length = BLDG_ROWS * BLDG_ROWS ∧
    (∀ p ∈ grid_positions 0 BLDG_ROWS,
      -125 ≤ p.x ∧ p.x ≤ 115 ∧ -125 ≤ p.z ∧ p.z ≤ 115) ∧
    (⟨-125, 0, -125⟩ : Vec3) ∈ grid_positions 0 BLDG_ROWS ∧
    (⟨115, 0, 115⟩ : Vec3) ∈ grid_positions 0 BLDG_ROWS ∧
    (-125 : ℚ) + BLDG_SPACING / 2 = -(115 + BLDG_SPACING / 2) ∧
    ∀ g wall_specs textures,
      (draw_building_grid g 0 BLDG_ROWS wall_specs textures).2 =
        ((grid_positions 0 BLDG_ROWS).map (fun p =>
          (draw_building g wall_specs ⟨WALL_WIDTH, STORY_HEIGHT, 1/5⟩ p
            qIdentity textures).2)).flatten := by
  refine ⟨by decide, grid_positions_bounds, grid_positions_corner_lo,
    grid_positions_corner_hi, by norm_num [BLDG_SPACING], ?_⟩
  intro g wall_specs textures
  simp [draw_building_grid, Function.comp_def]

/-- A trivial instantiation of the abstract glam quaternion operations,
used to evaluate the draw functions at concrete inputs. -/
def trivialQuatOps : QuatOps := ⟨fun _ _ => qIdentity, fun _ v => v, fun _ => qIdentity⟩

/-- A sample texture set for concrete evaluations. -/
def sampleTextureSet : TextureSet := (⟨"albedo", 0⟩, ⟨"normal", 1⟩, 1)

/-- A sample city texture table for concrete evaluations. -/
def sampleCityTextures : CityTextures :=
  ⟨sampleTextureSet, sampleTextureSet, sampleTextureSet,
    sampleTextureSet, sampleTextureSet, sampleTextureSet⟩

/-- Only mesh and material registrations occur in a call list: no
`add_object` and no `add_texture_2d`. -/
def meshOrMaterialOnly (ops : List RenderOp) : Prop :=
  ∀ op ∈ ops, (∃ msh, op = RenderOp.addMesh msh) ∨ (∃ mat, op = RenderOp.addMaterial mat)

theorem mOm_append {a b : List RenderOp} (ha : meshOrMaterialOnly a)
    (hb : meshOrMaterialOnly b) : meshOrMaterialOnly (a ++ b) := by
  intro op hop
  rcases List.mem_append.mp hop with h | h
  · exact ha op h
  · exact hb op h

theorem mOm_flatMap {α : Type} {l : List α} {f : α → List RenderOp}
    (h : ∀ x, meshOrMaterialOnly (f x)) : meshOrMaterialOnly (l.flatMap f) := by
  intro op hop
  obtain ⟨x, _, hop2⟩ := List.mem_flatMap.mp hop
  exact h x op hop2

theorem mOm_flatten {ls : List (List RenderOp)}
    (h : ∀ l ∈ ls, meshOrMaterialOnly l) : meshOrMaterialOnly ls.flatten := by
  intro op hop
  obtain ⟨l, hl, hop2⟩ := List.mem_flatten.mp hop
  exact h l hl op hop2

theorem mOm_block (scale offset pos : Vec3) (rot : Quat) (ti : TextureSet) :
    meshOrMaterialOnly (create_simple_block scale offset pos rot ti).1 := by
  intro op hop
  simp only [create_simple_block, create_simple_material, List.cons_append,
    List.nil_append, List.mem_cons, List.not_mem_nil, or_false] at hop
  rcases hop with h | h
  · exact Or.inr ⟨_, h⟩
  · exact Or.inl ⟨_, h⟩

theorem mOm_wall_section (kind : WallKind) (size pos : Vec3) (rot : Quat)
    (textures : CityTextures) :
    meshOrMaterialOnly (draw_wall_section kind size pos rot textures).1 := by
  cases kind <;> simp only [draw_wall_section] <;>
  first
  | exact mOm_block _ _ _ _ _
  | exact mOm_append (mOm_block _ _ _ _ _) (mOm_block _ _ _ _ _)
  | exact mOm_append (mOm_append (mOm_block _ _ _ _ _) (mOm_block _ _ _ _ _))
      (mOm_block _ _ _ _ _)

theorem mOm_floor_and_ceiling (height : ℚ) (size pos : Vec3) (rot : Quat)
    (textures : CityTextures) :
    meshOrMaterialOnly (draw_floor_and_ceiling height size pos rot textures).1 := by
  simp only [draw_floor_and_ceiling]
  exact mOm_append (mOm_block _ _ _ _ _) (mOm_block _ _ _ _ _)

theorem mOm_one_story (g : QuatOps) (front side : List WallKind) (size pos : Vec3)
    (rot : Quat) (textures : CityTextures) :
    meshOrMaterialOnly (draw_one_story g front side size pos rot textures).1 := by
  refine mOm_append (mOm_append (mOm_append (mOm_append
    (mOm_flatMap ?_) (mOm_flatMap ?_)) (mOm_flatMap ?_)) (mOm_flatMap ?_))
    (mOm_floor_and_ceiling _ _ _ _ _) <;>
    exact fun ik => mOm_wall_section _ _ _ _ _

theorem mOm_roof (height thickness : ℚ) (size pos : Vec3) (rot : Quat)
    (textures : CityTextures) :
    meshOrMaterialOnly (draw_roof height thickness size pos rot textures).1 := by
  simp only [draw_roof]
  exact mOm_append (mOm_append (mOm_append (mOm_append (mOm_block _ _ _ _ _)
    (mOm_block _ _ _ _ _)) (mOm_block _ _ _ _ _)) (mOm_block _ _ _ _ _))
    (mOm_block _ _ _ _ _)

theorem mOm_building (g : QuatOps) (wall_specs : List (List WallKind × List WallKind))
    (size pos : Vec3) (rot : Quat) (textures : CityTextures) :
    meshOrMaterialOnly (draw_building g wall_specs size pos rot textures).1 := by
  cases wall_specs with
  | nil => intro op hop; exact absurd hop (List.not_mem_nil op)
  | cons spec rest =>
    refine mOm_append (mOm_flatten ?_) (mOm_roof _ _ _ _ _ _)
    intro l hl
    obtain ⟨part, hpart, rfl⟩ := List.mem_map.mp hl
    obtain ⟨nspec, _, rfl⟩ := List.mem_map.mp hpart
    exact mOm_one_story _ _ _ _ _ _ _

theorem mOm_building_grid (g : QuatOps) (lo hi : ℕ)
    (wall_specs : List (List WallKind × List WallKind)) (textures : CityTextures) :
    meshOrMaterialOnly (draw_building_grid g lo hi wall_specs textures).1 := by
  refine mOm_flatten ?_
  intro l hl
  obtain ⟨part, hpart, rfl⟩ := List.mem_map.mp hl
  obtain ⟨p, _, rfl⟩ := List.mem_map.mp hpart
  exact mOm_building _ _ _ _ _ _

/-- C8 (counterexample): the composer is not registration-free.  Drawing a
single Solid wall section makes renderer registration calls: its emitted
call list is nonempty and contains an `add_mesh` (and an `add_material`) —
`create_simple_block` registers the mesh and material itself, inside
`draw_wall_section`. -/
theorem draw_wall_section_registers :
    (draw_wall_section WallKind.Solid ⟨2, 3, 1/5⟩ ⟨0, 0, 0⟩ qIdentity
      sampleCityTextures).1 ≠ [] ∧
    (∃ msh, RenderOp.addMesh msh ∈
      (draw_wall_section WallKind.Solid ⟨2, 3, 1/5⟩ ⟨0, 0, 0⟩ qIdentity
        sampleCityTextures).1) ∧
    (∃ mat, RenderOp.addMaterial mat ∈
      (draw_wall_section WallKind.Solid ⟨2, 3, 1/5⟩ ⟨0, 0, 0⟩ qIdentity
        sampleCityTextures).1) := by
  refine ⟨?_, ?_, ?_⟩ <;>
    simp [draw_wall_section, create_simple_block, create_simple_material]

/-- C8 (amended): the composer functions (`draw_building_grid`,
`draw_building`, `draw_one_story`, `draw_wall_section`) register meshes
and materials with the render engine themselves, via
`create_simple_block`; but they never register objects or textures: every
emitted renderer call is an `add_mesh` or an `add_material`, and the
returned `Object` descriptors are left for the caller to register in a
distinct subsequent step. -/
theorem composer_registers_mesh_material_only (g : QuatOps) (kind : WallKind)
    (size pos : Vec3) (rot : Quat) (front side : List WallKind)
    (wall_specs : List (List WallKind × List WallKind)) (lo hi : ℕ)
    (textures : CityTextures) :
    meshOrMaterialOnly (draw_wall_section kind size pos rot textures).1 ∧
    meshOrMaterialOnly (draw_one_story g front side size pos rot textures).1 ∧
    meshOrMaterialOnly (draw_building g wall_specs size pos rot textures).1 ∧
    meshOrMaterialOnly (draw_building_grid g lo hi wall_specs textures).1 :=
  ⟨mOm_wall_section _ _ _ _ _, mOm_one_story _ _ _ _ _ _ _,
    mOm_building _ _ _ _ _ _, mOm_building_grid _ _ _ _ _⟩

/-- The filesystem-and-decoder environment of `read_texture`:
`fs path = none` means `Reader::open` fails (unreadable file);
`fs path = some (.error d)` means the file opens but `decode()` fails
with the decoder's own message `d` (the decoder works on a reader and
does not know the pathname); `fs path = some (.ok img)` decodes to
`img`. -/
abbrev FileSystem := String → Option (Except String RgbaImage)

/-- `read_texture` from solids.rs: open and decode an image file into an
RGBA buffer.  The anyhow context `Texture file {path}` is attached ONLY
to the `open()` result (solids.rs:85-86); a `decode()` failure
propagates the decoder's error unchanged, without naming the file. -/
def read_texture (fs : FileSystem) (full_pathname : String) :
    Except String RgbaImage :=
  match fs full_pathname with
  | none => .error ("Texture file " ++ full_pathname)
  | some r => r

/-- One entry of `CityParams::texture_files`:
`(texture name, albedo file, normal file, scale)`. -/
structure TexEntry where
  name : String
  albedo_filename : String
  normal_filename : String
  texture_scale : ℚ
deriving DecidableEq, Repr

/-- `HashMap::insert`: the last write for a key wins. -/
def mapInsert (m : TextureSetRgbaMap) (key : String) (v : TextureSetRgba) :
    TextureSetRgbaMap :=
  fun s => if s = key then some v else m s

/-- The loop of `TextureSetRgba::new_map` from citybuilder.rs: for each
entry in order, read the albedo file then the normal file and insert the
pair under the entry's name.  The `.unwrap()` panic on the first
unreadable file is modelled as an error carrying the context message. -/
def new_map_loop (fs : FileSystem) (dir : String) :
    List TexEntry → TextureSetRgbaMap → Except String TextureSetRgbaMap
  | [], acc => .ok acc
  | e :: rest, acc =>
    match read_texture fs (dir ++ "/" ++ e.albedo_filename) with
    | .error msg => .error msg
    | .ok a =>
      match read_texture fs (dir ++ "/" ++ e.normal_filename) with
      | .error msg => .error msg
      | .ok n => new_map_loop fs dir rest (mapInsert acc e.name ⟨a, n, e.texture_scale⟩)

/-- `TextureSetRgba::new_map`: build the texture table from an empty map. -/
def TextureSetRgba.new_map (fs : FileSystem) (dir : String)
    (textures : List TexEntry) : Except String TextureSetRgbaMap :=
  new_map_loop fs dir textures (fun _ => none)

/-- `CityParams` from citybuilder.rs. -/
structure CityParams where
  building_count : ℕ
  texture_dir : String
  texture_files : List TexEntry

/-- `CityState` from citybuilder.rs: the held objects and the loaded
texture table. -/
structure CityState where
  objects : List Object
  textures : TextureSetRgbaMap

/-- `CityBuilder` from citybuilder.rs.  Worker join handles are modelled
by the spawned thread indices; the stop flag by a boolean. -/
structure CityBuilder where
  threads : List ℕ
  state : CityState
  stop_flag : Bool
  params : CityParams

/-- `CityBuilder::new`: empty state, no threads, stop flag clear. -/
def CityBuilder.new (city_params : CityParams) : CityBuilder :=
  ⟨[], ⟨[], fun _ => none⟩, false, city_params⟩

/-- `CityBuilder::init`: pre-spawn initialization, loading all the
textures into the shared state. -/
def CityBuilder.init (fs : FileSystem) (b : CityBuilder) :
    Except String CityBuilder :=
  match TextureSetRgba.new_map fs b.params.texture_dir b.params.texture_files with
  | .error msg => .error msg
  | .ok tmap => .ok { b with state := { b.state with textures := tmap } }

/-- `CityBuilder::start`: `assert!(thread_count < 100)` first (the panic
is modelled as an error), then `init`, then spawn the workers (modelled by
their indices `0..thread_count`). -/
def CityBuilder.start (fs : FileSystem) (b : CityBuilder)
    (thread_count : ℕ) : Except String CityBuilder :=
  if thread_count < 100 then
    match CityBuilder.init fs b with
    | .error msg => .error msg
    | .ok b2 => .ok { b2 with threads := List.range thread_count }
  else .error "assertion failed: thread_count < 100"

/-- The worker threads recorded by a start attempt: none when it failed. -/
def startedThreads (r : Except String CityBuilder) : List ℕ :=
  match r with
  | .ok b => b.threads
  | .error _ => []

/-- C6: starting with a thread count of 100 or more fails fast with the
assertion message, before any initialization (the result is this error for
EVERY filesystem, so the texture-loading init is never consulted), no
builder is produced, and zero worker threads are spawned. -/
theorem start_rejects_large_thread_count (fs : FileSystem)
    (b : CityBuilder) (n : ℕ) (hn : 100 ≤ n) :
    CityBuilder.start fs b n = .error "assertion failed: thread_count < 100" ∧
    startedThreads (CityBuilder.start fs b n) = [] ∧
    (∀ b2, CityBuilder.start fs b n ≠ .ok b2) ∧
    (CityBuilder.new b.params).threads = [] := by
  have hguard : ¬ n < 100 := by omega
  refine ⟨?_, ?_, ?_, rfl⟩
  · rw [CityBuilder.start, if_neg hguard]
  · rw [CityBuilder.start, if_neg hguard]
    rfl
  · intro b2 h
    rw [CityBuilder.start, if_neg hguard] at h
    exact Except.noConfusion h

/-- C6 (witness): starting a fresh builder with 100 threads fails with the
assertion error and records no worker. -/
theorem start_rejects_large_thread_count_witness :
    CityBuilder.start (fun _ => none) (CityBuilder.new ⟨0, "dir", []⟩) 100 =
      .error "assertion failed: thread_count < 100" ∧
    startedThreads (CityBuilder.start (fun _ => none)
      (CityBuilder.new ⟨0, "dir", []⟩) 100) = [] :=
  ⟨(start_rejects_large_thread_count _ _ 100 (by norm_num)).1,
    (start_rejects_large_thread_count _ _ 100 (by norm_num)).2.1⟩

/-- If some listed texture file fails to read or to decode, the loading
loop fails, whatever the accumulated map; the resulting error either
names an unreadable file (`Texture file <path>`, from the open context)
or is the bare decoder message of an undecodable file. -/
theorem new_map_loop_fails (fs : FileSystem) (dir : String) :
    ∀ (textures : List TexEntry) (acc : TextureSetRgbaMap),
      (∃ e ∈ textures,
        (∀ img, fs (dir ++ "/" ++ e.albedo_filename) ≠ some (Except.ok img)) ∨
        (∀ img, fs (dir ++ "/" ++ e.normal_filename) ≠ some (Except.ok img))) →
      ∃ msg p,
        (∃ e ∈ textures, p = dir ++ "/" ++ e.albedo_filename ∨
          p = dir ++ "/" ++ e.normal_filename) ∧
        ((fs p = none ∧ msg = "Texture file " ++ p) ∨ fs p = some (Except.error msg)) ∧
        new_map_loop fs dir textures acc = .error msg := by
  intro textures
  induction textures with
  | nil =>
    rintro acc ⟨e, he, _⟩
    exact absurd he (List.not_mem_nil e)
  | cons e rest ih =>
    rintro acc ⟨e2, he2, hfail⟩
    cases hfa : fs (dir ++ "/" ++ e.albedo_filename) with
    | none =>
      exact ⟨_, _, ⟨e, by simp, Or.inl rfl⟩, Or.inl ⟨hfa, rfl⟩,
        by simp [new_map_loop, read_texture, hfa]⟩
    | some r =>
      cases r with
      | error d =>
        exact ⟨d, _, ⟨e, by simp, Or.inl rfl⟩, Or.inr hfa,
          by simp [new_map_loop, read_texture, hfa]⟩
      | ok a =>
        cases hfn : fs (dir ++ "/" ++ e.normal_filename) with
        | none =>
          exact ⟨_, _, ⟨e, by simp, Or.inr rfl⟩, Or.inl ⟨hfn, rfl⟩,
            by simp [new_map_loop, read_texture, hfa, hfn]⟩
        | some rn =>
          cases rn with
          | error d =>
            exact ⟨d, _, ⟨e, by simp, Or.inr rfl⟩, Or.inr hfn,
              by simp [new_map_loop, read_texture, hfa, hfn]⟩
          | ok b =>
            have hrest : ∃ e3 ∈ rest,
                (∀ img, fs (dir ++ "/" ++ e3.albedo_filename) ≠ some (Except.ok img)) ∨
                (∀ img, fs (dir ++ "/" ++ e3.normal_filename) ≠ some (Except.ok img)) := by
              rcases List.mem_cons.mp he2 with rfl | hmem
              · rcases hfail with h | h
                · exact absurd hfa (h a)
                · exact absurd hfn (h b)
              · exact ⟨e2, hmem, hfail⟩
            obtain ⟨msg, p, ⟨e3, he3, hp2⟩, hp3, hp4⟩ :=
              ih (mapInsert acc e.name ⟨a, b, e.texture_scale⟩) hrest
            exact ⟨msg, p, ⟨e3, List.mem_cons_of_mem _ he3, hp2⟩, hp3,
              by simp [new_map_loop, read_texture, hfa, hfn, hp4]⟩

/-- A filesystem on which every file opens but no file decodes: the
decoder always fails with its own message, which contains no pathname. -/
def fs_undecodable : FileSystem := fun _ => some (Except.error "corrupt image data")

/-- C7 (counterexample): for an undecodable (readable but corrupt) image
file, texture loading does NOT fail with an error naming the offending
file: the `Texture file` context wraps only the `open()` result, so a
`decode()` failure surfaces as the bare decoder message.  Two texture
lists naming different files produce the identical error
`"corrupt image data"`, which therefore cannot name the offending file
and differs from the named-file message; no worker is started. -/
theorem texture_decode_error_unnamed :
    CityBuilder.start fs_undecodable
        (CityBuilder.new ⟨1, "dir", [⟨"brick", "a.png", "n.png", 1⟩]⟩) 1 =
      .error "corrupt image data" ∧
    CityBuilder.start fs_undecodable
        (CityBuilder.new ⟨1, "dir", [⟨"brick", "b.png", "other.png", 1⟩]⟩) 1 =
      .error "corrupt image data" ∧
    "corrupt image data" ≠ "Texture file dir/a.png" ∧
    startedThreads (CityBuilder.start fs_undecodable
      (CityBuilder.new ⟨1, "dir", [⟨"brick", "a.png", "n.png", 1⟩]⟩) 1) = [] :=
  ⟨rfl, rfl, by decide, rfl⟩

/-- C7 (amended): with a valid thread count, if any listed albedo or
normal image file is unreadable or undecodable, `CityBuilder::start`
fails during initialization, no builder is produced, and zero worker
threads are started (no worker runs with a partially loaded texture
table); the error names the offending file (`Texture file <path>`) when
that file is unreadable, and is the decoder's own message — which does
not name the file — when the file opens but cannot be decoded. -/
theorem texture_load_failure_before_workers (fs : FileSystem)
    (params : CityParams) (n : ℕ) (hn : n < 100)
    (hfail : ∃ e ∈ params.texture_files,
      (∀ img, fs (params.texture_dir ++ "/" ++ e.albedo_filename) ≠ some (Except.ok img)) ∨
      (∀ img, fs (params.texture_dir ++ "/" ++ e.normal_filename) ≠ some (Except.ok img))) :
    ∃ msg p,
      (∃ e ∈ params.texture_files,
        p = params.texture_dir ++ "/" ++ e.albedo_filename ∨
        p = params.texture_dir ++ "/" ++ e.normal_filename) ∧
      ((fs p = none ∧ msg = "Texture file " ++ p) ∨ fs p = some (Except.error msg)) ∧
      CityBuilder.start fs (CityBuilder.new params) n = .error msg ∧
      startedThreads (CityBuilder.start fs (CityBuilder.new params) n) = [] := by
  obtain ⟨msg, p, hp1, hp2, hp3⟩ :=
    new_map_loop_fails fs params.texture_dir params.texture_files (fun _ => none) hfail
  have hstart : CityBuilder.start fs (CityBuilder.new params) n = .error msg := by
    simp only [CityBuilder.start, if_pos hn, CityBuilder.init,
      TextureSetRgba.new_map, CityBuilder.new, hp3]
  exact ⟨msg, p, hp1, hp2, hstart, by rw [hstart]; rfl⟩

/-- C7 (witness): with a single listed entry whose files are absent from
the filesystem (unreadable), start fails during init naming one of its
files and spawns nothing. -/
theorem texture_load_failure_witness :
    ∃ msg p,
      (∃ e ∈ [(⟨"brick", "a.png", "n.png", 1⟩ : TexEntry)],
        p = "dir" ++ "/" ++ e.albedo_filename ∨
        p = "dir" ++ "/" ++ e.normal_filename) ∧
      (((fun _ : String => (none : Option (Except String RgbaImage))) p = none ∧
          msg = "Texture file " ++ p) ∨
        (fun _ : String => (none : Option (Except String RgbaImage))) p =
          some (Except.error msg)) ∧
      CityBuilder.start (fun _ => none)
        (CityBuilder.new ⟨1, "dir", [⟨"brick", "a.png", "n.png", 1⟩]⟩) 1 =
        .error msg ∧
      startedThreads (CityBuilder.start (fun _ => none)
        (CityBuilder.new ⟨1, "dir", [⟨"brick", "a.png", "n.png", 1⟩]⟩) 1) = [] :=
  texture_load_failure_before_workers (fun _ => none)
    ⟨1, "dir", [⟨"brick", "a.png", "n.png", 1⟩]⟩ 1 (by norm_num)
    ⟨⟨"brick", "a.png", "n.png", 1⟩, by simp,
      Or.inl (fun img h => Option.noConfusion h)⟩

/-- The ground-plane block built at the start of `CityBuilder::run`:
a `256 x 0.5 x 256` slab at `y = -0.25`, textured with
`city_textures.ground`. -/
def make_ground_block (ct : CityTextures) : List RenderOp × Object :=
  create_simple_block ⟨256, 1/2, 256⟩ ⟨0, 0, 0⟩ ⟨0, -(1/4), 0⟩ qIdentity ct.ground

/-- A sample loaded texture table holding all six semantic keys with
distinct images, `roof` mapping to images 8 and 9 and `ground` to images
10 and 11. -/
def sampleRgbaMap : TextureSetRgbaMap := fun s =>
  if s = "stone" then some ⟨0, 1, 1⟩
  else if s = "brick" then some ⟨2, 3, 1⟩
  else if s = "floor" then some ⟨4, 5, 1⟩
  else if s = "ceiling" then some ⟨6, 7, 1⟩
  else if s = "roof" then some ⟨8, 9, 1⟩
  else if s = "ground" then some ⟨10, 11, 1⟩
  else none

/-- C10: whenever the engine-resident city texture table is built
successfully from a loaded map, the texture set stored under the semantic
role `ground` is created from the map entry keyed `roof` — labelled
`"roof"` and using the roof entry's images — even when a `ground` entry is
present in the map; consequently `ground` coincides with `roof` and the
ground-plane block of `CityBuilder::run` is textured with the roof
texture. -/
theorem ground_uses_roof_texture (rgbas : TextureSetRgbaMap)
    (tR tG : TextureSetRgba) (ops : List RenderOp) (ct : CityTextures)
    (hroof : rgbas "roof" = some tR) (_hground : rgbas "ground" = some tG)
    (hok : CityTextures.new_from_map rgbas = .ok (ops, ct)) :
    ct.ground = (⟨"roof", tR.albedo⟩, ⟨"roof", tR.normal⟩, tR.texture_scale) ∧
    ct.ground = ct.roof ∧
    (make_ground_block ct).2.material.albedo = ⟨"roof", tR.albedo⟩ := by
  cases h1 : rgbas "stone" with
  | none => simp [CityTextures.new_from_map, get_textures, h1] at hok
  | some t1 =>
  cases h2 : rgbas "brick" with
  | none => simp [CityTextures.new_from_map, get_textures, h1, h2] at hok
  | some t2 =>
  cases h3 : rgbas "floor" with
  | none => simp [CityTextures.new_from_map, get_textures, h1, h2, h3] at hok
  | some t3 =>
  cases h4 : rgbas "ceiling" with
  | none => simp [CityTextures.new_from_map, get_textures, h1, h2, h3, h4] at hok
  | some t4 =>
  simp only [CityTextures.new_from_map, get_textures, h1, h2, h3, h4, hroof,
    Except.ok.injEq, Prod.mk.injEq] at hok
  obtain ⟨_, hct⟩ := hok
  subst hct
  refine ⟨rfl, rfl, rfl⟩

/-- C10 (witness): building the table from `sampleRgbaMap` (which has a
`ground` entry with images 10 and 11) yields a `ground` texture set made
from the `roof` entry (images 8 and 9, label "roof"), equal to `roof`. -/
theorem ground_uses_roof_texture_witness :
    ∃ ops ct, CityTextures.new_from_map sampleRgbaMap = Except.ok (ops, ct) ∧
      ct.ground = (⟨"roof", 8⟩, ⟨"roof", 9⟩, (1 : ℚ)) ∧ ct.ground = ct.roof := by
  obtain ⟨hg, hgr, _⟩ := ground_uses_roof_texture sampleRgbaMap ⟨8, 9, 1⟩ ⟨10, 11, 1⟩
    _ _ rfl rfl rfl
  exact ⟨_, _, rfl, hg, hgr⟩

/-- C9: the planar UV computation and the mesh builder are deterministic:
bit-identical vertex positions, normals and texture-repeat factor give
bit-identical UV lists, and identical scale, offset and repeat give
identical meshes.  (The source functions are pure: no global state, no
randomness; IEEE f32 arithmetic is itself deterministic, so the pure
model is faithful.) -/
theorem uv_mapping_deterministic :
    (∀ (vp ns : List Vec3) (ts : ℚ) (vp2 ns2 : List Vec3) (ts2 : ℚ),
      vp = vp2 → ns = ns2 → ts = ts2 →
      calc_uvs vp ns ts = calc_uvs vp2 ns2 ts2) ∧
    (∀ (scale offset : Vec3) (ts : ℚ) (scale2 offset2 : Vec3) (ts2 : ℚ),
      scale = scale2 → offset = offset2 → ts = ts2 →
      create_mesh scale offset ts = create_mesh scale2 offset2 ts2) := by
  constructor <;>
  · intro a b c a2 b2 c2 h1 h2 h3
    rw [h1, h2, h3]

/-- C9 (witness): determinism at a concrete input. -/
theorem uv_mapping_deterministic_witness :
    calc_uvs [⟨1, 2, 3⟩] [⟨0, 0, 1⟩] 2 = calc_uvs [⟨1, 2, 3⟩] [⟨0, 0, 1⟩] 2 ∧
    create_mesh ⟨1, 1, 1⟩ ⟨0, 0, 0⟩ 1 = create_mesh ⟨1, 1, 1⟩ ⟨0, 0, 0⟩ 1 :=
  ⟨uv_mapping_deterministic.1 _ _ _ _ _ _ rfl rfl rfl,
    uv_mapping_deterministic.2 _ _ _ _ _ _ rfl rfl rfl⟩
